import Mathlib

/-!
Shallow embedding of the proof-parameter registry in
`rust-filecoin-proofs-api` (`src/registry.rs`), together with models of the
external collaborators the registry reads (the Partition Table, the
Parameter Table, and the proving-system library's configuration helpers).

Modelling conventions:
- Rust `Result<T, anyhow::Error>` becomes `Outcome`, with `.err` for the
  recoverable error channel and `.fatal` for panics
  (`expect`, failed `assert_eq!`), which are a distinct, non-recoverable
  outcome in the source.
- The two process-global, immutable-after-init tables are passed explicitly
  in an `Env` record instead of being global state; every registry
  operation that reads them takes the `Env` as an argument.
- Machine integers (`u8`, `u64`, `usize`) are represented as `Nat`; no
  arithmetic in this module can overflow (the only arithmetic is table
  lookup and string formatting of small constants).
-/

namespace FilecoinProofsApi

/-- The proof version enumeration (`Version`, src/registry.rs lines 17-20).
Its single current member is `V1`. -/
inductive Version where
  | V1
deriving DecidableEq

/-- The seal (PoRep) proof catalog (`RegisteredSealProof`,
src/registry.rs lines 8-15): five fixed variants, one per sector size class. -/
inductive RegisteredSealProof where
  | StackedDrg1KiBV1
  | StackedDrg16MiBV1
  | StackedDrg256MiBV1
  | StackedDrg1GiBV1
  | StackedDrg32GiBV1
deriving DecidableEq

/-- The PoSt proof catalog (`RegisteredPoStProof`,
src/registry.rs lines 150-157): five fixed variants, structurally parallel
to the seal catalog but a distinct type. -/
inductive RegisteredPoStProof where
  | StackedDrg1KiBV1
  | StackedDrg16MiBV1
  | StackedDrg256MiBV1
  | StackedDrg1GiBV1
  | StackedDrg32GiBV1
deriving DecidableEq

/-- The external library's sector-size newtype (`SectorSize(u64)`). -/
structure SectorSize where
  size : Nat
deriving DecidableEq

/-- The external library's seal configuration record (`PoRepConfig`):
sector size plus partition count (`PoRepProofPartitions(u8)` unwrapped to
its numeric value). -/
structure PoRepConfig where
  sector_size : SectorSize
  partitions : Nat
deriving DecidableEq

/-- The external library's PoSt configuration record (`PoStConfig`):
sector size, challenge parameters, and a priority flag. -/
structure PoStConfig where
  sector_size : SectorSize
  challenge_count : Nat
  challenged_nodes : Nat
  priority : Bool
deriving DecidableEq

/-- An entry of the Parameter Table (`ParameterData`), carrying the
content identifier of the published parameter file. -/
structure ParameterData where
  cid : String
deriving DecidableEq

/-- Result of a registry operation. `.ok` and `.err` are the two sides of
the source's `anyhow::Result`; `.fatal` models a panic
(a failed `expect` or `assert_eq!`), which in Rust aborts rather than
returning an error value. -/
inductive Outcome (α : Type) where
  | ok : α → Outcome α
  | err : String → Outcome α
  | fatal : String → Outcome α
deriving DecidableEq

/-- Monadic sequencing on `Outcome`: both the recoverable error and the
fatal outcome propagate (`?` propagates errors; a panic unwinds). -/
def Outcome.bind {α β : Type} : Outcome α → (α → Outcome β) → Outcome β
  | .ok a, f => f a
  | .err e, _ => .err e
  | .fatal e, _ => .fatal e

/-- Inject the external library's `Result` (embedded as `Except`) into
`Outcome`: an `Err` crosses the `?` operator as a recoverable error. -/
def Outcome.ofExcept {α : Type} : Except String α → Outcome α
  | .ok a => .ok a
  | .error e => .err e

/-- `true` exactly on the success constructor. -/
def Outcome.isOk {α : Type} : Outcome α → Bool
  | .ok _ => true
  | _ => false

/-- Modelled from the spec: the external constant `SECTOR_SIZE_ONE_KIB`
(the 1 KiB sector size class, in bytes) lives in the proving-system
library, not in this repository. -/
def SECTOR_SIZE_ONE_KIB : Nat := 1024

/-- Modelled from the spec: the external constant `SECTOR_SIZE_16_MIB`. -/
def SECTOR_SIZE_16_MIB : Nat := 16777216

/-- Modelled from the spec: the external constant `SECTOR_SIZE_256_MIB`. -/
def SECTOR_SIZE_256_MIB : Nat := 268435456

/-- Modelled from the spec: the external constant `SECTOR_SIZE_1_GIB`. -/
def SECTOR_SIZE_1_GIB : Nat := 1073741824

/-- Modelled from the spec: the external constant `SECTOR_SIZE_32_GIB`. -/
def SECTOR_SIZE_32_GIB : Nat := 34359738368

/-- Modelled from the spec: the external constant
`SINGLE_PARTITION_PROOF_LEN`, a positive proof byte length fixed by the
proving-system library. -/
def SINGLE_PARTITION_PROOF_LEN : Nat := 192

/-- Modelled from the spec: the external constant `POST_CHALLENGE_COUNT`,
a positive challenge-count constant of the proving-system library. -/
def POST_CHALLENGE_COUNT : Nat := 66

/-- Modelled from the spec: the external constant `POST_CHALLENGED_NODES`,
a positive challenged-node-count constant of the proving-system library. -/
def POST_CHALLENGED_NODES : Nat := 1

/-- Modelled from the spec: the well-known cache root under which the
external Path Resolver forms its paths. -/
def parameter_cache_dir : String := "/var/tmp/filecoin-proof-parameters/"

/-- Modelled from the spec: the proving-system library's
`PoRepConfig::get_cache_identifier` is not part of this repository.
Per the spec (Identifier Deriver) it is a pure, deterministic function of
the configuration's fields — sector size and partition count — embedding
them into a stable string, and its only failure mode (an unrecognized
version) is unreachable for the V1 configurations built here. -/
def PoRepConfig.get_cache_identifier (self : PoRepConfig) : Except String String :=
  Except.ok ("stacked-proof-of-replication-" ++ toString self.sector_size.size
    ++ "-" ++ toString self.partitions)

/-- Modelled from the spec: the proving-system library's
`PoStConfig::get_cache_identifier`, a pure, deterministic function of the
configuration's fields — sector size and challenge parameters. -/
def PoStConfig.get_cache_identifier (self : PoStConfig) : Except String String :=
  Except.ok ("proof-of-spacetime-" ++ toString self.sector_size.size
    ++ "-" ++ toString self.challenge_count
    ++ "-" ++ toString self.challenged_nodes)

/-- Modelled from the spec: the external Path Resolver
`get_cache_verifying_key_path`, deriving the on-disk path deterministically
from the circuit identifier and the kind under the cache root; no I/O. -/
def PoRepConfig.get_cache_verifying_key_path (self : PoRepConfig) : Except String String :=
  self.get_cache_identifier.map fun id => parameter_cache_dir ++ id ++ ".vk"

/-- Modelled from the spec: the external Path Resolver
`get_cache_params_path` for seal configurations. -/
def PoRepConfig.get_cache_params_path (self : PoRepConfig) : Except String String :=
  self.get_cache_identifier.map fun id => parameter_cache_dir ++ id ++ ".params"

/-- Modelled from the spec: the external Path Resolver
`get_cache_verifying_key_path` for PoSt configurations. -/
def PoStConfig.get_cache_verifying_key_path (self : PoStConfig) : Except String String :=
  self.get_cache_identifier.map fun id => parameter_cache_dir ++ id ++ ".vk"

/-- Modelled from the spec: the external Path Resolver
`get_cache_params_path` for PoSt configurations. -/
def PoStConfig.get_cache_params_path (self : PoStConfig) : Except String String :=
  self.get_cache_identifier.map fun id => parameter_cache_dir ++ id ++ ".params"

/-- The two process-global, immutable-after-init tables the registry reads,
passed explicitly: `POREP_PARTITIONS` (sector size → partition count) and
`PARAMETERS` (filename key → entry with a content identifier). -/
structure Env where
  POREP_PARTITIONS : Nat → Option Nat
  PARAMETERS : String → Option ParameterData

/-- `RegisteredSealProof::version` (src/registry.rs lines 24-31). -/
def RegisteredSealProof.version (self : RegisteredSealProof) : Version :=
  match self with
  | .StackedDrg1KiBV1 | .StackedDrg16MiBV1 | .StackedDrg256MiBV1 | .StackedDrg1GiBV1
  | .StackedDrg32GiBV1 => Version.V1

/-- `RegisteredSealProof::sector_size` (src/registry.rs lines 34-45). -/
def RegisteredSealProof.sector_size (self : RegisteredSealProof) : SectorSize :=
  let size := match self with
    | .StackedDrg1KiBV1 => SECTOR_SIZE_ONE_KIB
    | .StackedDrg16MiBV1 => SECTOR_SIZE_16_MIB
    | .StackedDrg256MiBV1 => SECTOR_SIZE_256_MIB
    | .StackedDrg1GiBV1 => SECTOR_SIZE_1_GIB
    | .StackedDrg32GiBV1 => SECTOR_SIZE_32_GIB
  SectorSize.mk size

/-- `RegisteredSealProof::partitions` (src/registry.rs lines 48-78):
each arm looks its variant's sector-size constant up in the Partition
Table; a missing entry is `expect("invalid sector size")`, i.e. a panic,
modelled as `.fatal`. -/
def RegisteredSealProof.partitions (env : Env) (self : RegisteredSealProof) : Outcome Nat :=
  match self with
  | .StackedDrg1KiBV1 =>
      match env.POREP_PARTITIONS SECTOR_SIZE_ONE_KIB with
      | some p => .ok p
      | none => .fatal "invalid sector size"
  | .StackedDrg16MiBV1 =>
      match env.POREP_PARTITIONS SECTOR_SIZE_16_MIB with
      | some p => .ok p
      | none => .fatal "invalid sector size"
  | .StackedDrg256MiBV1 =>
      match env.POREP_PARTITIONS SECTOR_SIZE_256_MIB with
      | some p => .ok p
      | none => .fatal "invalid sector size"
  | .StackedDrg1GiBV1 =>
      match env.POREP_PARTITIONS SECTOR_SIZE_1_GIB with
      | some p => .ok p
      | none => .fatal "invalid sector size"
  | .StackedDrg32GiBV1 =>
      match env.POREP_PARTITIONS SECTOR_SIZE_32_GIB with
      | some p => .ok p
      | none => .fatal "invalid sector size"

/-- `RegisteredSealProof::single_partition_proof_len`
(src/registry.rs lines 80-87). -/
def RegisteredSealProof.single_partition_proof_len (self : RegisteredSealProof) : Nat :=
  match self with
  | .StackedDrg1KiBV1 | .StackedDrg16MiBV1 | .StackedDrg256MiBV1 | .StackedDrg1GiBV1
  | .StackedDrg32GiBV1 => SINGLE_PARTITION_PROOF_LEN

/-- `RegisteredSealProof::as_v1_config` (src/registry.rs lines 89-102):
asserts `version() == V1` (a failed assertion is a panic, `.fatal`), then
builds the `PoRepConfig`; the `partitions()` call inside may itself panic,
which propagates. -/
def RegisteredSealProof.as_v1_config (env : Env) (self : RegisteredSealProof) : Outcome PoRepConfig :=
  if self.version = Version.V1 then
    match self with
    | .StackedDrg1KiBV1 | .StackedDrg16MiBV1 | .StackedDrg256MiBV1 | .StackedDrg1GiBV1
    | .StackedDrg32GiBV1 =>
        (self.partitions env).bind fun p =>
          .ok (PoRepConfig.mk self.sector_size p)
  else .fatal "assertion failed: self.version() == Version::V1"

/-- `RegisteredSealProof::circuit_identifier` (src/registry.rs lines 105-109). -/
def RegisteredSealProof.circuit_identifier (env : Env) (self : RegisteredSealProof) : Outcome String :=
  match self.version with
  | Version.V1 =>
      (self.as_v1_config env).bind fun cfg =>
        Outcome.ofExcept cfg.get_cache_identifier

/-- `RegisteredSealProof::cache_verifying_key_path`
(src/registry.rs lines 111-115). -/
def RegisteredSealProof.cache_verifying_key_path (env : Env) (self : RegisteredSealProof) : Outcome String :=
  match self.version with
  | Version.V1 =>
      (self.as_v1_config env).bind fun cfg =>
        Outcome.ofExcept cfg.get_cache_verifying_key_path

/-- `RegisteredSealProof::cache_params_path` (src/registry.rs lines 117-121). -/
def RegisteredSealProof.cache_params_path (env : Env) (self : RegisteredSealProof) : Outcome String :=
  match self.version with
  | Version.V1 =>
      (self.as_v1_config env).bind fun cfg =>
        Outcome.ofExcept cfg.get_cache_params_path

/-- `RegisteredSealProof::verifying_key_cid` (src/registry.rs lines 123-133):
computes the identifier, looks up the exact key `<id>.vk` in the Parameter
Table, and on a miss fails through `ensure!` with the message
`missing params for <id>`. -/
def RegisteredSealProof.verifying_key_cid (env : Env) (self : RegisteredSealProof) : Outcome String :=
  match self.version with
  | Version.V1 =>
      (self.as_v1_config env).bind fun cfg =>
      (Outcome.ofExcept cfg.get_cache_identifier).bind fun id =>
        match env.PARAMETERS (id ++ ".vk") with
        | some p => .ok p.cid
        | none => .err ("missing params for " ++ id)

/-- `RegisteredSealProof::params_cid` (src/registry.rs lines 135-146):
same as `verifying_key_cid` with lookup key `<id>.params`. -/
def RegisteredSealProof.params_cid (env : Env) (self : RegisteredSealProof) : Outcome String :=
  match self.version with
  | Version.V1 =>
      (self.as_v1_config env).bind fun cfg =>
      (Outcome.ofExcept cfg.get_cache_identifier).bind fun id =>
        match env.PARAMETERS (id ++ ".params") with
        | some p => .ok p.cid
        | none => .err ("missing params for " ++ id)

/-- `RegisteredPoStProof::version` (src/registry.rs lines 161-168). -/
def RegisteredPoStProof.version (self : RegisteredPoStProof) : Version :=
  match self with
  | .StackedDrg1KiBV1 | .StackedDrg16MiBV1 | .StackedDrg256MiBV1 | .StackedDrg1GiBV1
  | .StackedDrg32GiBV1 => Version.V1

/-- `RegisteredPoStProof::sector_size` (src/registry.rs lines 171-183). -/
def RegisteredPoStProof.sector_size (self : RegisteredPoStProof) : SectorSize :=
  let size := match self with
    | .StackedDrg1KiBV1 => SECTOR_SIZE_ONE_KIB
    | .StackedDrg16MiBV1 => SECTOR_SIZE_16_MIB
    | .StackedDrg256MiBV1 => SECTOR_SIZE_256_MIB
    | .StackedDrg1GiBV1 => SECTOR_SIZE_1_GIB
    | .StackedDrg32GiBV1 => SECTOR_SIZE_32_GIB
  SectorSize.mk size

/-- `RegisteredPoStProof::partitions` (src/registry.rs lines 186-193):
the constant 1 for every variant, with no table lookup and no failure
mode (a total function into `Nat`). -/
def RegisteredPoStProof.partitions (self : RegisteredPoStProof) : Nat :=
  match self with
  | .StackedDrg1KiBV1 | .StackedDrg16MiBV1 | .StackedDrg256MiBV1 | .StackedDrg1GiBV1
  | .StackedDrg32GiBV1 => 1

/-- `RegisteredPoStProof::single_partition_proof_len`
(src/registry.rs lines 195-202). -/
def RegisteredPoStProof.single_partition_proof_len (self : RegisteredPoStProof) : Nat :=
  match self with
  | .StackedDrg1KiBV1 | .StackedDrg16MiBV1 | .StackedDrg256MiBV1 | .StackedDrg1GiBV1
  | .StackedDrg32GiBV1 => SINGLE_PARTITION_PROOF_LEN

/-- `RegisteredPoStProof::as_v1_config` (src/registry.rs lines 204-219):
asserts `version() == V1`, then builds the `PoStConfig` with the external
challenge constants and `priority: true`. Reads no table. -/
def RegisteredPoStProof.as_v1_config (self : RegisteredPoStProof) : Outcome PoStConfig :=
  if self.version = Version.V1 then
    match self with
    | .StackedDrg1KiBV1 | .StackedDrg16MiBV1 | .StackedDrg256MiBV1 | .StackedDrg1GiBV1
    | .StackedDrg32GiBV1 =>
        .ok (PoStConfig.mk self.sector_size POST_CHALLENGE_COUNT POST_CHALLENGED_NODES true)
  else .fatal "assertion failed: self.version() == Version::V1"

/-- `RegisteredPoStProof::circuit_identifier` (src/registry.rs lines 222-226). -/
def RegisteredPoStProof.circuit_identifier (self : RegisteredPoStProof) : Outcome String :=
  match self.version with
  | Version.V1 =>
      self.as_v1_config.bind fun cfg =>
        Outcome.ofExcept cfg.get_cache_identifier

/-- `RegisteredPoStProof::cache_verifying_key_path`
(src/registry.rs lines 228-232). -/
def RegisteredPoStProof.cache_verifying_key_path (self : RegisteredPoStProof) : Outcome String :=
  match self.version with
  | Version.V1 =>
      self.as_v1_config.bind fun cfg =>
        Outcome.ofExcept cfg.get_cache_verifying_key_path

/-- `RegisteredPoStProof::cache_params_path` (src/registry.rs lines 234-238). -/
def RegisteredPoStProof.cache_params_path (self : RegisteredPoStProof) : Outcome String :=
  match self.version with
  | Version.V1 =>
      self.as_v1_config.bind fun cfg =>
        Outcome.ofExcept cfg.get_cache_params_path

/-- `RegisteredPoStProof::verifying_key_cid` (src/registry.rs lines 240-250). -/
def RegisteredPoStProof.verifying_key_cid (env : Env) (self : RegisteredPoStProof) : Outcome String :=
  match self.version with
  | Version.V1 =>
      self.as_v1_config.bind fun cfg =>
      (Outcome.ofExcept cfg.get_cache_identifier).bind fun id =>
        match env.PARAMETERS (id ++ ".vk") with
        | some p => .ok p.cid
        | none => .err ("missing params for " ++ id)

/-- `RegisteredPoStProof::params_cid` (src/registry.rs lines 252-263). -/
def RegisteredPoStProof.params_cid (env : Env) (self : RegisteredPoStProof) : Outcome String :=
  match self.version with
  | Version.V1 =>
      self.as_v1_config.bind fun cfg =>
      (Outcome.ofExcept cfg.get_cache_identifier).bind fun id =>
        match env.PARAMETERS (id ++ ".params") with
        | some p => .ok p.cid
        | none => .err ("missing params for " ++ id)

/-- Modelled from the spec: the serde derive on the fieldless catalog enums
serializes each variant to its stable textual tag — the variant's name.
Seal-catalog serializer. -/
def RegisteredSealProof.serialize : RegisteredSealProof → String
  | .StackedDrg1KiBV1 => "StackedDrg1KiBV1"
  | .StackedDrg16MiBV1 => "StackedDrg16MiBV1"
  | .StackedDrg256MiBV1 => "StackedDrg256MiBV1"
  | .StackedDrg1GiBV1 => "StackedDrg1GiBV1"
  | .StackedDrg32GiBV1 => "StackedDrg32GiBV1"

/-- Modelled from the spec: serde deserialization of the seal catalog —
an exact-match on the five variant tags; any other tag is a decode error,
never a default variant. -/
def RegisteredSealProof.deserialize (s : String) : Except String RegisteredSealProof :=
  if s = "StackedDrg1KiBV1" then .ok .StackedDrg1KiBV1
  else if s = "StackedDrg16MiBV1" then .ok .StackedDrg16MiBV1
  else if s = "StackedDrg256MiBV1" then .ok .StackedDrg256MiBV1
  else if s = "StackedDrg1GiBV1" then .ok .StackedDrg1GiBV1
  else if s = "StackedDrg32GiBV1" then .ok .StackedDrg32GiBV1
  else .error ("unknown variant " ++ s)

/-- Modelled from the spec: PoSt-catalog serializer (serde derive). -/
def RegisteredPoStProof.serialize : RegisteredPoStProof → String
  | .StackedDrg1KiBV1 => "StackedDrg1KiBV1"
  | .StackedDrg16MiBV1 => "StackedDrg16MiBV1"
  | .StackedDrg256MiBV1 => "StackedDrg256MiBV1"
  | .StackedDrg1GiBV1 => "StackedDrg1GiBV1"
  | .StackedDrg32GiBV1 => "StackedDrg32GiBV1"

/-- Modelled from the spec: serde deserialization of the PoSt catalog. -/
def RegisteredPoStProof.deserialize (s : String) : Except String RegisteredPoStProof :=
  if s = "StackedDrg1KiBV1" then .ok .StackedDrg1KiBV1
  else if s = "StackedDrg16MiBV1" then .ok .StackedDrg16MiBV1
  else if s = "StackedDrg256MiBV1" then .ok .StackedDrg256MiBV1
  else if s = "StackedDrg1GiBV1" then .ok .StackedDrg1GiBV1
  else if s = "StackedDrg32GiBV1" then .ok .StackedDrg32GiBV1
  else .error ("unknown variant " ++ s)

/-- The five textual tags shared by both catalogs. -/
def catalogTags : List String :=
  ["StackedDrg1KiBV1", "StackedDrg16MiBV1", "StackedDrg256MiBV1",
   "StackedDrg1GiBV1", "StackedDrg32GiBV1"]

/-- Modelled from the spec: a deployed Partition Table — an entry with a
positive partition count for every catalog sector size (the spec's
lock-step deployment invariant), and nothing else. -/
def deployedPorepPartitions : Nat → Option Nat := fun n =>
  if n = SECTOR_SIZE_ONE_KIB then some 2
  else if n = SECTOR_SIZE_16_MIB then some 2
  else if n = SECTOR_SIZE_256_MIB then some 2
  else if n = SECTOR_SIZE_1_GIB then some 2
  else if n = SECTOR_SIZE_32_GIB then some 10
  else none

/-- A Parameter Table populated for every key (in particular for the full
current catalog): each key maps to an entry whose content identifier is
derived from the key. -/
def fullParameterTable : String → Option ParameterData :=
  fun k => some (ParameterData.mk ("Qm-" ++ k))

/-- An environment with the deployed Partition Table and a fully populated
Parameter Table. -/
def fullEnv : Env := Env.mk deployedPorepPartitions fullParameterTable

/-- An environment whose Parameter Table holds the `.params` entries for
the two 1 KiB variants but no `.vk` entry at all. -/
def vkMissingEnv : Env :=
  Env.mk deployedPorepPartitions fun k =>
    if k = "stacked-proof-of-replication-1024-2.params" then
      some (ParameterData.mk "Qm-seal-1k-params")
    else if k = "proof-of-spacetime-1024-66-1.params" then
      some (ParameterData.mk "Qm-post-1k-params")
    else none

/-- An environment with the deployed Partition Table and an empty
Parameter Table. -/
def emptyParamsEnv : Env := Env.mk deployedPorepPartitions fun _ => none

/-- An environment with an empty Partition Table and a fully populated
Parameter Table. -/
def emptyPartitionEnv : Env := Env.mk (fun _ => none) fullParameterTable

theorem seal_version_eq (v : RegisteredSealProof) :
    v.version = Version.V1 := by
  cases v <;> rfl

theorem post_version_eq (v : RegisteredPoStProof) :
    v.version = Version.V1 := by
  cases v <;> rfl

theorem seal_partitions_eq (env : Env) (v : RegisteredSealProof) :
    v.partitions env =
      match env.POREP_PARTITIONS v.sector_size.size with
      | some p => Outcome.ok p
      | none => Outcome.fatal "invalid sector size" := by
  cases v <;> rfl

theorem seal_as_v1_config_eq (env : Env) (v : RegisteredSealProof) :
    v.as_v1_config env =
      (v.partitions env).bind fun p => Outcome.ok (PoRepConfig.mk v.sector_size p) := by
  cases v <;> rfl

theorem seal_circuit_identifier_eq (env : Env) (v : RegisteredSealProof) :
    v.circuit_identifier env =
      (v.as_v1_config env).bind fun cfg => Outcome.ofExcept cfg.get_cache_identifier := by
  cases v <;> rfl

theorem seal_verifying_key_cid_eq (env : Env) (v : RegisteredSealProof) :
    v.verifying_key_cid env =
      (v.as_v1_config env).bind fun cfg =>
      (Outcome.ofExcept cfg.get_cache_identifier).bind fun id =>
        match env.PARAMETERS (id ++ ".vk") with
        | some p => Outcome.ok p.cid
        | none => Outcome.err ("missing params for " ++ id) := by
  cases v <;> rfl

theorem seal_params_cid_eq (env : Env) (v : RegisteredSealProof) :
    v.params_cid env =
      (v.as_v1_config env).bind fun cfg =>
      (Outcome.ofExcept cfg.get_cache_identifier).bind fun id =>
        match env.PARAMETERS (id ++ ".params") with
        | some p => Outcome.ok p.cid
        | none => Outcome.err ("missing params for " ++ id) := by
  cases v <;> rfl

theorem post_as_v1_config_eq (v : RegisteredPoStProof) :
    v.as_v1_config =
      Outcome.ok (PoStConfig.mk v.sector_size POST_CHALLENGE_COUNT POST_CHALLENGED_NODES true) := by
  cases v <;> rfl

theorem post_circuit_identifier_eq (v : RegisteredPoStProof) :
    v.circuit_identifier =
      v.as_v1_config.bind fun cfg => Outcome.ofExcept cfg.get_cache_identifier := by
  cases v <;> rfl

theorem post_verifying_key_cid_eq (env : Env) (v : RegisteredPoStProof) :
    v.verifying_key_cid env =
      v.as_v1_config.bind fun cfg =>
      (Outcome.ofExcept cfg.get_cache_identifier).bind fun id =>
        match env.PARAMETERS (id ++ ".vk") with
        | some p => Outcome.ok p.cid
        | none => Outcome.err ("missing params for " ++ id) := by
  cases v <;> rfl

theorem post_params_cid_eq (env : Env) (v : RegisteredPoStProof) :
    v.params_cid env =
      v.as_v1_config.bind fun cfg =>
      (Outcome.ofExcept cfg.get_cache_identifier).bind fun id =>
        match env.PARAMETERS (id ++ ".params") with
        | some p => Outcome.ok p.cid
        | none => Outcome.err ("missing params for " ++ id) := by
  cases v <;> rfl

instance {α β : Type} [DecidableEq α] [DecidableEq β] : DecidableEq (Except α β) := fun x y =>
  match x, y with
  | .ok a, .ok b =>
      if h : a = b then isTrue (by rw [h]) else isFalse (by intro hc; cases hc; exact h rfl)
  | .error a, .error b =>
      if h : a = b then isTrue (by rw [h]) else isFalse (by intro hc; cases hc; exact h rfl)
  | .ok _, .error _ => isFalse (by intro hc; cases hc)
  | .error _, .ok _ => isFalse (by intro hc; cases hc)

theorem Outcome.bind_ok {α β : Type} (a : α) (f : α → Outcome β) :
    (Outcome.ok a).bind f = f a := rfl

theorem Outcome.ofExcept_ok {α : Type} (a : α) :
    Outcome.ofExcept (Except.ok a) = Outcome.ok a := rfl

theorem Outcome.isOk_ok {α : Type} (a : α) : (Outcome.ok a).isOk = true := rfl

theorem seal_verifying_key_cid_hit (env : Env) (v : RegisteredSealProof)
    (cfg : PoRepConfig) (id : String) (p : ParameterData)
    (h1 : v.as_v1_config env = Outcome.ok cfg)
    (h2 : cfg.get_cache_identifier = Except.ok id)
    (h3 : env.PARAMETERS (id ++ ".vk") = some p) :
    v.verifying_key_cid env = Outcome.ok p.cid := by
  rw [seal_verifying_key_cid_eq, h1]
  simp only [Outcome.bind]
  rw [h2]
  simp only [Outcome.ofExcept, Outcome.bind]
  rw [h3]

theorem seal_verifying_key_cid_miss (env : Env) (v : RegisteredSealProof)
    (cfg : PoRepConfig) (id : String)
    (h1 : v.as_v1_config env = Outcome.ok cfg)
    (h2 : cfg.get_cache_identifier = Except.ok id)
    (h3 : env.PARAMETERS (id ++ ".vk") = none) :
    v.verifying_key_cid env = Outcome.err ("missing params for " ++ id) := by
  rw [seal_verifying_key_cid_eq, h1]
  simp only [Outcome.bind]
  rw [h2]
  simp only [Outcome.ofExcept, Outcome.bind]
  rw [h3]

theorem seal_params_cid_hit (env : Env) (v : RegisteredSealProof)
    (cfg : PoRepConfig) (id : String) (p : ParameterData)
    (h1 : v.as_v1_config env = Outcome.ok cfg)
    (h2 : cfg.get_cache_identifier = Except.ok id)
    (h3 : env.PARAMETERS (id ++ ".params") = some p) :
    v.params_cid env = Outcome.ok p.cid := by
  rw [seal_params_cid_eq, h1]
  simp only [Outcome.bind]
  rw [h2]
  simp only [Outcome.ofExcept, Outcome.bind]
  rw [h3]

theorem seal_params_cid_miss (env : Env) (v : RegisteredSealProof)
    (cfg : PoRepConfig) (id : String)
    (h1 : v.as_v1_config env = Outcome.ok cfg)
    (h2 : cfg.get_cache_identifier = Except.ok id)
    (h3 : env.PARAMETERS (id ++ ".params") = none) :
    v.params_cid env = Outcome.err ("missing params for " ++ id) := by
  rw [seal_params_cid_eq, h1]
  simp only [Outcome.bind]
  rw [h2]
  simp only [Outcome.ofExcept, Outcome.bind]
  rw [h3]

theorem post_verifying_key_cid_hit (env : Env) (v : RegisteredPoStProof)
    (cfg : PoStConfig) (id : String) (p : ParameterData)
    (h1 : v.as_v1_config = Outcome.ok cfg)
    (h2 : cfg.get_cache_identifier = Except.ok id)
    (h3 : env.PARAMETERS (id ++ ".vk") = some p) :
    v.verifying_key_cid env = Outcome.ok p.cid := by
  rw [post_verifying_key_cid_eq, h1]
  simp only [Outcome.bind]
  rw [h2]
  simp only [Outcome.ofExcept, Outcome.bind]
  rw [h3]

theorem post_verifying_key_cid_miss (env : Env) (v : RegisteredPoStProof)
    (cfg : PoStConfig) (id : String)
    (h1 : v.as_v1_config = Outcome.ok cfg)
    (h2 : cfg.get_cache_identifier = Except.ok id)
    (h3 : env.PARAMETERS (id ++ ".vk") = none) :
    v.verifying_key_cid env = Outcome.err ("missing params for " ++ id) := by
  rw [post_verifying_key_cid_eq, h1]
  simp only [Outcome.bind]
  rw [h2]
  simp only [Outcome.ofExcept, Outcome.bind]
  rw [h3]

theorem post_params_cid_hit (env : Env) (v : RegisteredPoStProof)
    (cfg : PoStConfig) (id : String) (p : ParameterData)
    (h1 : v.as_v1_config = Outcome.ok cfg)
    (h2 : cfg.get_cache_identifier = Except.ok id)
    (h3 : env.PARAMETERS (id ++ ".params") = some p) :
    v.params_cid env = Outcome.ok p.cid := by
  rw [post_params_cid_eq, h1]
  simp only [Outcome.bind]
  rw [h2]
  simp only [Outcome.ofExcept, Outcome.bind]
  rw [h3]

theorem post_params_cid_miss (env : Env) (v : RegisteredPoStProof)
    (cfg : PoStConfig) (id : String)
    (h1 : v.as_v1_config = Outcome.ok cfg)
    (h2 : cfg.get_cache_identifier = Except.ok id)
    (h3 : env.PARAMETERS (id ++ ".params") = none) :
    v.params_cid env = Outcome.err ("missing params for " ++ id) := by
  rw [post_params_cid_eq, h1]
  simp only [Outcome.bind]
  rw [h2]
  simp only [Outcome.ofExcept, Outcome.bind]
  rw [h3]

theorem seal_cache_verifying_key_path_eq (env : Env) (v : RegisteredSealProof) :
    v.cache_verifying_key_path env =
      (v.as_v1_config env).bind fun cfg => Outcome.ofExcept cfg.get_cache_verifying_key_path := by
  cases v <;> rfl

theorem seal_cache_params_path_eq (env : Env) (v : RegisteredSealProof) :
    v.cache_params_path env =
      (v.as_v1_config env).bind fun cfg => Outcome.ofExcept cfg.get_cache_params_path := by
  cases v <;> rfl

theorem post_cache_verifying_key_path_eq (v : RegisteredPoStProof) :
    v.cache_verifying_key_path =
      v.as_v1_config.bind fun cfg => Outcome.ofExcept cfg.get_cache_verifying_key_path := by
  cases v <;> rfl

theorem post_cache_params_path_eq (v : RegisteredPoStProof) :
    v.cache_params_path =
      v.as_v1_config.bind fun cfg => Outcome.ofExcept cfg.get_cache_params_path := by
  cases v <;> rfl

/-- Claim C1, counterexample: at the concrete input
`RegisteredSealProof.StackedDrg1KiBV1` with an empty Parameter Table,
`verifying_key_cid` returns the recoverable error
`missing params for stacked-proof-of-replication-1024-2`: the message
contains the circuit identifier but does not contain the kind (`vk`)
that was missing, refuting the claim that the diagnostic includes both
the identifier and the kind. -/
theorem verifying_key_cid_diagnostic_lacks_kind :
    RegisteredSealProof.StackedDrg1KiBV1.verifying_key_cid emptyParamsEnv
      = Outcome.err "missing params for stacked-proof-of-replication-1024-2"
  ∧ "stacked-proof-of-replication-1024-2".data <:+:
      "missing params for stacked-proof-of-replication-1024-2".data
  ∧ ¬ ("vk".data <:+: "missing params for stacked-proof-of-replication-1024-2".data) := by
  decide

/-- Claim C1 (amended): for every variant of both catalogs and each kind in
{vk, params}, the content-id lookup computes the circuit identifier, forms
the exact lookup key `<identifier>.vk` or `<identifier>.params`, and
queries the Parameter Table; on a hit it returns the stored content
identifier, and on a miss it returns a recoverable error whose diagnostic
message is `missing params for <identifier>` — it includes the identifier
but not the kind that was missing. -/
theorem content_id_lookup_contract :
    (∀ (env : Env) (v : RegisteredSealProof) (cfg : PoRepConfig) (id : String),
        v.as_v1_config env = Outcome.ok cfg →
        cfg.get_cache_identifier = Except.ok id →
          (∀ p, env.PARAMETERS (id ++ ".vk") = some p →
              v.verifying_key_cid env = Outcome.ok p.cid)
        ∧ (env.PARAMETERS (id ++ ".vk") = none →
              v.verifying_key_cid env = Outcome.err ("missing params for " ++ id)
            ∧ id.data <:+: ("missing params for " ++ id).data)
        ∧ (∀ p, env.PARAMETERS (id ++ ".params") = some p →
              v.params_cid env = Outcome.ok p.cid)
        ∧ (env.PARAMETERS (id ++ ".params") = none →
              v.params_cid env = Outcome.err ("missing params for " ++ id)
            ∧ id.data <:+: ("missing params for " ++ id).data))
  ∧ (∀ (env : Env) (v : RegisteredPoStProof) (cfg : PoStConfig) (id : String),
        v.as_v1_config = Outcome.ok cfg →
        cfg.get_cache_identifier = Except.ok id →
          (∀ p, env.PARAMETERS (id ++ ".vk") = some p →
              v.verifying_key_cid env = Outcome.ok p.cid)
        ∧ (env.PARAMETERS (id ++ ".vk") = none →
              v.verifying_key_cid env = Outcome.err ("missing params for " ++ id)
            ∧ id.data <:+: ("missing params for " ++ id).data)
        ∧ (∀ p, env.PARAMETERS (id ++ ".params") = some p →
              v.params_cid env = Outcome.ok p.cid)
        ∧ (env.PARAMETERS (id ++ ".params") = none →
              v.params_cid env = Outcome.err ("missing params for " ++ id)
            ∧ id.data <:+: ("missing params for " ++ id).data)) := by
  have hsuf : ∀ id : String, id.data <:+: ("missing params for " ++ id).data := by
    intro id
    exact List.IsSuffix.isInfix ⟨"missing params for ".data, (String.data_append _ _).symm⟩
  constructor
  · intro env v cfg id h1 h2
    exact ⟨fun p hp => seal_verifying_key_cid_hit env v cfg id p h1 h2 hp,
           fun hp => ⟨seal_verifying_key_cid_miss env v cfg id h1 h2 hp, hsuf id⟩,
           fun p hp => seal_params_cid_hit env v cfg id p h1 h2 hp,
           fun hp => ⟨seal_params_cid_miss env v cfg id h1 h2 hp, hsuf id⟩⟩
  · intro env v cfg id h1 h2
    exact ⟨fun p hp => post_verifying_key_cid_hit env v cfg id p h1 h2 hp,
           fun hp => ⟨post_verifying_key_cid_miss env v cfg id h1 h2 hp, hsuf id⟩,
           fun p hp => post_params_cid_hit env v cfg id p h1 h2 hp,
           fun hp => ⟨post_params_cid_miss env v cfg id h1 h2 hp, hsuf id⟩⟩

/-- Claim C1 (amended), witness: the lookup contract applied to the
concrete variant `RegisteredSealProof.StackedDrg1KiBV1` in the environment
whose Parameter Table holds its `.params` entry and no `.vk` entry. -/
theorem content_id_lookup_contract_witness :
    RegisteredSealProof.StackedDrg1KiBV1.params_cid vkMissingEnv
      = Outcome.ok "Qm-seal-1k-params"
  ∧ RegisteredSealProof.StackedDrg1KiBV1.verifying_key_cid vkMissingEnv
      = Outcome.err "missing params for stacked-proof-of-replication-1024-2" := by
  have h := content_id_lookup_contract.1 vkMissingEnv RegisteredSealProof.StackedDrg1KiBV1
      (PoRepConfig.mk (SectorSize.mk 1024) 2) "stacked-proof-of-replication-1024-2"
      (by decide) (by decide)
  exact ⟨h.2.2.1 (ParameterData.mk "Qm-seal-1k-params") (by decide), (h.2.1 (by decide)).1⟩

/-- Claim C2: given a Parameter Table containing the `.params` entry for a
variant's circuit identifier but no `.vk` entry, `verifying_key_cid`
returns the missing-parameters error while `params_cid` on the same
variant still returns the stored content identifier: the two lookups are
independent. Stated for both catalogs. -/
theorem vk_params_lookup_independence :
    (∀ (env : Env) (v : RegisteredSealProof) (cfg : PoRepConfig) (id : String) (p : ParameterData),
        v.as_v1_config env = Outcome.ok cfg →
        cfg.get_cache_identifier = Except.ok id →
        env.PARAMETERS (id ++ ".params") = some p →
        env.PARAMETERS (id ++ ".vk") = none →
          v.params_cid env = Outcome.ok p.cid
        ∧ v.verifying_key_cid env = Outcome.err ("missing params for " ++ id))
  ∧ (∀ (env : Env) (v : RegisteredPoStProof) (cfg : PoStConfig) (id : String) (p : ParameterData),
        v.as_v1_config = Outcome.ok cfg →
        cfg.get_cache_identifier = Except.ok id →
        env.PARAMETERS (id ++ ".params") = some p →
        env.PARAMETERS (id ++ ".vk") = none →
          v.params_cid env = Outcome.ok p.cid
        ∧ v.verifying_key_cid env = Outcome.err ("missing params for " ++ id)) := by
  constructor
  · intro env v cfg id p h1 h2 h3 h4
    exact ⟨seal_params_cid_hit env v cfg id p h1 h2 h3,
           seal_verifying_key_cid_miss env v cfg id h1 h2 h4⟩
  · intro env v cfg id p h1 h2 h3 h4
    exact ⟨post_params_cid_hit env v cfg id p h1 h2 h3,
           post_verifying_key_cid_miss env v cfg id h1 h2 h4⟩

/-- Claim C2, witness: the independence property applied to the concrete
variant `RegisteredPoStProof.StackedDrg1KiBV1` in the environment whose
Parameter Table holds its `.params` entry and no `.vk` entry. -/
theorem vk_params_lookup_independence_witness :
    RegisteredPoStProof.StackedDrg1KiBV1.params_cid vkMissingEnv
      = Outcome.ok "Qm-post-1k-params"
  ∧ RegisteredPoStProof.StackedDrg1KiBV1.verifying_key_cid vkMissingEnv
      = Outcome.err "missing params for proof-of-spacetime-1024-66-1" := by
  have h := vk_params_lookup_independence.2 vkMissingEnv RegisteredPoStProof.StackedDrg1KiBV1
      (PoStConfig.mk (SectorSize.mk 1024) 66 1 true) "proof-of-spacetime-1024-66-1"
      (ParameterData.mk "Qm-post-1k-params")
      (by decide) (by decide) (by decide) (by decide)
  exact ⟨h.1, h.2⟩

/-- Claim C3: for every seal variant, `partitions` reads the Partition
Table entry keyed by that variant's sector size and returns it when
present; if the sector size is absent the call fails fatally
(`Outcome.fatal`, a panic, not the recoverable `Outcome.err`), and under
the precondition that the table has an entry for every catalog sector size
the fatal branch is unreachable. Every PoSt variant's `partitions` is the
constant 1, a total function with no table lookup. -/
theorem partitions_behavior :
    (∀ (env : Env) (v : RegisteredSealProof),
        (∀ p, env.POREP_PARTITIONS v.sector_size.size = some p →
            v.partitions env = Outcome.ok p)
      ∧ (env.POREP_PARTITIONS v.sector_size.size = none →
            v.partitions env = Outcome.fatal "invalid sector size"))
  ∧ (∀ (env : Env),
        (∀ v : RegisteredSealProof, (env.POREP_PARTITIONS v.sector_size.size).isSome = true) →
        ∀ v : RegisteredSealProof, ∃ p, v.partitions env = Outcome.ok p)
  ∧ (∀ v : RegisteredPoStProof, v.partitions = 1) := by
  refine ⟨fun env v => ⟨fun p hp => ?_, fun hp => ?_⟩, fun env h v => ?_, fun v => ?_⟩
  · rw [seal_partitions_eq, hp]
  · rw [seal_partitions_eq, hp]
  · obtain ⟨p, hp⟩ := Option.isSome_iff_exists.mp (h v)
    exact ⟨p, by rw [seal_partitions_eq, hp]⟩
  · cases v <;> rfl

/-- Claim C3, witness: the table-read behavior at the concrete variants
`StackedDrg32GiBV1` (entry present, value 10) and `StackedDrg1KiBV1`
against a Partition Table with no entries (fatal outcome). -/
theorem partitions_behavior_witness :
    RegisteredSealProof.StackedDrg32GiBV1.partitions fullEnv = Outcome.ok 10
  ∧ RegisteredSealProof.StackedDrg1KiBV1.partitions emptyPartitionEnv
      = Outcome.fatal "invalid sector size" := by
  exact ⟨(partitions_behavior.1 fullEnv RegisteredSealProof.StackedDrg32GiBV1).1 10 (by decide),
         (partitions_behavior.1 emptyPartitionEnv RegisteredSealProof.StackedDrg1KiBV1).2 (by decide)⟩

/-- Claim C4: for every variant of both catalogs `as_v1_config`'s internal
assertion that `version()` equals `V1` always passes (the version is `V1`,
and the PoSt config builder always succeeds outright); and in any
environment whose Partition Table covers every catalog sector size and
whose Parameter Table holds both the `.params` and `.vk` entries for every
catalog-derived identifier, `as_v1_config`, `circuit_identifier`,
`cache_verifying_key_path`, `cache_params_path`, `verifying_key_cid` and
`params_cid` all return `ok` on every variant. -/
theorem full_catalog_resolution :
    (∀ v : RegisteredSealProof, v.version = Version.V1)
  ∧ (∀ v : RegisteredPoStProof, v.version = Version.V1)
  ∧ (∀ v : RegisteredPoStProof, v.as_v1_config.isOk = true)
  ∧ (∀ (env : Env),
      (∀ v : RegisteredSealProof, (env.POREP_PARTITIONS v.sector_size.size).isSome = true) →
      (∀ (v : RegisteredSealProof) (cfg : PoRepConfig) (id : String),
          v.as_v1_config env = Outcome.ok cfg → cfg.get_cache_identifier = Except.ok id →
          (env.PARAMETERS (id ++ ".params")).isSome = true
        ∧ (env.PARAMETERS (id ++ ".vk")).isSome = true) →
      (∀ (v : RegisteredPoStProof) (cfg : PoStConfig) (id : String),
          v.as_v1_config = Outcome.ok cfg → cfg.get_cache_identifier = Except.ok id →
          (env.PARAMETERS (id ++ ".params")).isSome = true
        ∧ (env.PARAMETERS (id ++ ".vk")).isSome = true) →
        (∀ v : RegisteredSealProof,
            (v.as_v1_config env).isOk = true
          ∧ (v.circuit_identifier env).isOk = true
          ∧ (v.cache_verifying_key_path env).isOk = true
          ∧ (v.cache_params_path env).isOk = true
          ∧ (v.verifying_key_cid env).isOk = true
          ∧ (v.params_cid env).isOk = true)
      ∧ (∀ v : RegisteredPoStProof,
            v.as_v1_config.isOk = true
          ∧ v.circuit_identifier.isOk = true
          ∧ v.cache_verifying_key_path.isOk = true
          ∧ v.cache_params_path.isOk = true
          ∧ (v.verifying_key_cid env).isOk = true
          ∧ (v.params_cid env).isOk = true)) := by
  refine ⟨seal_version_eq, post_version_eq,
    fun v => by rw [post_as_v1_config_eq]; rfl, ?_⟩
  intro env h1 h2 h3
  constructor
  · intro v
    obtain ⟨p, hp⟩ := Option.isSome_iff_exists.mp (h1 v)
    have hpart : v.partitions env = Outcome.ok p := by
      rw [seal_partitions_eq, hp]
    have hcfg : v.as_v1_config env = Outcome.ok (PoRepConfig.mk v.sector_size p) := by
      rw [seal_as_v1_config_eq, hpart]; rfl
    have hid : (PoRepConfig.mk v.sector_size p).get_cache_identifier
        = Except.ok ("stacked-proof-of-replication-" ++ toString v.sector_size.size
            ++ "-" ++ toString p) := rfl
    obtain ⟨hpm, hvm⟩ := h2 v _ _ hcfg hid
    obtain ⟨qp, hqp⟩ := Option.isSome_iff_exists.mp hpm
    obtain ⟨qv, hqv⟩ := Option.isSome_iff_exists.mp hvm
    refine ⟨by rw [hcfg]; rfl, ?_, ?_, ?_, ?_, ?_⟩
    · rw [seal_circuit_identifier_eq, hcfg]; rfl
    · rw [seal_cache_verifying_key_path_eq, hcfg]; rfl
    · rw [seal_cache_params_path_eq, hcfg]; rfl
    · rw [seal_verifying_key_cid_hit env v _ _ qv hcfg hid hqv]; rfl
    · rw [seal_params_cid_hit env v _ _ qp hcfg hid hqp]; rfl
  · intro v
    have hcfg := post_as_v1_config_eq v
    have hid : (PoStConfig.mk v.sector_size POST_CHALLENGE_COUNT POST_CHALLENGED_NODES
          true).get_cache_identifier
        = Except.ok ("proof-of-spacetime-" ++ toString v.sector_size.size
            ++ "-" ++ toString POST_CHALLENGE_COUNT
            ++ "-" ++ toString POST_CHALLENGED_NODES) := rfl
    obtain ⟨hpm, hvm⟩ := h3 v _ _ hcfg hid
    obtain ⟨qp, hqp⟩ := Option.isSome_iff_exists.mp hpm
    obtain ⟨qv, hqv⟩ := Option.isSome_iff_exists.mp hvm
    refine ⟨by rw [hcfg]; rfl, ?_, ?_, ?_, ?_, ?_⟩
    · rw [post_circuit_identifier_eq, hcfg]; rfl
    · rw [post_cache_verifying_key_path_eq, hcfg]; rfl
    · rw [post_cache_params_path_eq, hcfg]; rfl
    · rw [post_verifying_key_cid_hit env v _ _ qv hcfg hid hqv]; rfl
    · rw [post_params_cid_hit env v _ _ qp hcfg hid hqp]; rfl

/-- Claim C4, witness: the resolution guarantees applied in the concrete
environment with the deployed Partition Table and a fully populated
Parameter Table, sampled at two concrete variants. -/
theorem full_catalog_resolution_witness :
    (RegisteredSealProof.StackedDrg32GiBV1.verifying_key_cid fullEnv).isOk = true
  ∧ (RegisteredPoStProof.StackedDrg256MiBV1.params_cid fullEnv).isOk = true := by
  have h := full_catalog_resolution.2.2.2 fullEnv
    (fun v => by cases v <;> rfl)
    (fun _ _ _ _ _ => ⟨rfl, rfl⟩)
    (fun _ _ _ _ _ => ⟨rfl, rfl⟩)
  exact ⟨(h.1 RegisteredSealProof.StackedDrg32GiBV1).2.2.2.2.1,
         (h.2 RegisteredPoStProof.StackedDrg256MiBV1).2.2.2.2.2⟩

/-- Claim C5: for every variant in both catalogs, `partitions` (in the
deployed environment) is strictly positive, `sector_size` is strictly
positive, `single_partition_proof_len` is strictly positive, and `version`
is `V1`; `version` and `sector_size` are total functions. -/
theorem catalog_basic_invariants :
    (∀ v : RegisteredSealProof,
        (∃ p, v.partitions fullEnv = Outcome.ok p ∧ 0 < p)
      ∧ 0 < v.sector_size.size
      ∧ 0 < v.single_partition_proof_len
      ∧ v.version = Version.V1)
  ∧ (∀ v : RegisteredPoStProof,
        0 < v.partitions
      ∧ 0 < v.sector_size.size
      ∧ 0 < v.single_partition_proof_len
      ∧ v.version = Version.V1) := by
  constructor
  · intro v
    cases v <;>
      first
      | exact ⟨⟨2, by decide, by decide⟩, by decide, by decide, rfl⟩
      | exact ⟨⟨10, by decide, by decide⟩, by decide, by decide, rfl⟩
  · intro v
    cases v <;> exact ⟨by decide, by decide, by decide, rfl⟩

/-- Claim C6: the circuit identifier is a deterministic pure function of
the configuration's fields — it does not depend on the Parameter Table
(two environments agreeing on the Partition Table give byte-identical
identifiers), and equal configurations give equal identifiers across both
catalogs. -/
theorem circuit_identifier_deterministic :
    (∀ (e1 e2 : Env), e1.POREP_PARTITIONS = e2.POREP_PARTITIONS →
        ∀ v : RegisteredSealProof, v.circuit_identifier e1 = v.circuit_identifier e2)
  ∧ (∀ (e1 e2 : Env) (v w : RegisteredSealProof),
        v.as_v1_config e1 = w.as_v1_config e2 →
        v.circuit_identifier e1 = w.circuit_identifier e2)
  ∧ (∀ (v w : RegisteredPoStProof),
        v.as_v1_config = w.as_v1_config →
        v.circuit_identifier = w.circuit_identifier) := by
  refine ⟨?_, ?_, ?_⟩
  · intro e1 e2 h v
    rw [seal_circuit_identifier_eq, seal_circuit_identifier_eq,
        seal_as_v1_config_eq, seal_as_v1_config_eq,
        seal_partitions_eq, seal_partitions_eq, h]
  · intro e1 e2 v w h
    rw [seal_circuit_identifier_eq, seal_circuit_identifier_eq, h]
  · intro v w h
    rw [post_circuit_identifier_eq, post_circuit_identifier_eq, h]

/-- Claim C6, witness: determinism applied to the concrete variant
`StackedDrg1KiBV1` across two environments with the same Partition Table
but different Parameter Tables. -/
theorem circuit_identifier_deterministic_witness :
    RegisteredSealProof.StackedDrg1KiBV1.circuit_identifier fullEnv
      = RegisteredSealProof.StackedDrg1KiBV1.circuit_identifier vkMissingEnv :=
  circuit_identifier_deterministic.1 fullEnv vkMissingEnv rfl RegisteredSealProof.StackedDrg1KiBV1

/-- Claim C7: serializing any variant of either catalog to its stable
textual tag and deserializing that tag yields the identical variant, and
deserializing any tag outside the catalog fails with a decode error
rather than producing a default variant. -/
theorem serde_round_trip :
    (∀ v : RegisteredSealProof, RegisteredSealProof.deserialize v.serialize = Except.ok v)
  ∧ (∀ v : RegisteredPoStProof, RegisteredPoStProof.deserialize v.serialize = Except.ok v)
  ∧ (∀ s : String, s ∉ catalogTags →
        RegisteredSealProof.deserialize s = Except.error ("unknown variant " ++ s)
      ∧ RegisteredPoStProof.deserialize s = Except.error ("unknown variant " ++ s)) := by
  refine ⟨fun v => by cases v <;> decide, fun v => by cases v <;> decide, ?_⟩
  intro s hs
  simp only [catalogTags, List.mem_cons, List.not_mem_nil, or_false, not_or] at hs
  obtain ⟨h1, h2, h3, h4, h5⟩ := hs
  constructor
  · rw [RegisteredSealProof.deserialize, if_neg h1, if_neg h2, if_neg h3, if_neg h4, if_neg h5]
  · rw [RegisteredPoStProof.deserialize, if_neg h1, if_neg h2, if_neg h3, if_neg h4, if_neg h5]

/-- Claim C7, witness: the decode-error behavior applied to the concrete
tag `NotACatalogTag`, which names no catalog variant. -/
theorem serde_round_trip_witness :
    RegisteredSealProof.deserialize "NotACatalogTag"
      = Except.error "unknown variant NotACatalogTag"
  ∧ RegisteredPoStProof.deserialize "NotACatalogTag"
      = Except.error "unknown variant NotACatalogTag" :=
  serde_round_trip.2.2 "NotACatalogTag" (by decide)

/-- Claim C8 (separation): within each catalog, any two variants whose
sector sizes differ yield different circuit identifiers. -/
theorem circuit_identifier_separation :
    (∀ v w : RegisteredSealProof, v.sector_size ≠ w.sector_size →
        v.circuit_identifier fullEnv ≠ w.circuit_identifier fullEnv)
  ∧ (∀ v w : RegisteredPoStProof, v.sector_size ≠ w.sector_size →
        v.circuit_identifier ≠ w.circuit_identifier) := by
  constructor
  · intro v w
    cases v <;> cases w <;> decide
  · intro v w
    cases v <;> cases w <;> decide

/-- Claim C8, witness: separation applied to the concrete pair of seal
variants with sector sizes 1024 and 34359738368. -/
theorem circuit_identifier_separation_witness :
    RegisteredSealProof.StackedDrg1KiBV1.circuit_identifier fullEnv
      ≠ RegisteredSealProof.StackedDrg32GiBV1.circuit_identifier fullEnv :=
  circuit_identifier_separation.1 RegisteredSealProof.StackedDrg1KiBV1
    RegisteredSealProof.StackedDrg32GiBV1 (by decide)

/-- Claim C9: the smallest seal variant has sector size 1024 bytes; its
partition count is exactly the Partition Table's entry keyed by 1024
(value 2 in the deployed table); and its circuit identifier depends only
on the configuration fields — any two environments agreeing on the 1024
Partition Table entry yield byte-identical identifiers, which is what
makes the identifier stable across repeated calls and process restarts. -/
theorem smallest_variant_resolution :
    RegisteredSealProof.StackedDrg1KiBV1.sector_size = SectorSize.mk 1024
  ∧ (∀ (env : Env) (p : Nat), env.POREP_PARTITIONS 1024 = some p →
        RegisteredSealProof.StackedDrg1KiBV1.partitions env = Outcome.ok p)
  ∧ RegisteredSealProof.StackedDrg1KiBV1.partitions fullEnv = Outcome.ok 2
  ∧ (∀ (e1 e2 : Env), e1.POREP_PARTITIONS 1024 = e2.POREP_PARTITIONS 1024 →
        RegisteredSealProof.StackedDrg1KiBV1.circuit_identifier e1
          = RegisteredSealProof.StackedDrg1KiBV1.circuit_identifier e2) := by
  refine ⟨rfl, fun env p hp => ?_, by decide, fun e1 e2 h => ?_⟩
  · rw [seal_partitions_eq,
        show RegisteredSealProof.StackedDrg1KiBV1.sector_size.size = 1024 from rfl, hp]
  · rw [seal_circuit_identifier_eq, seal_circuit_identifier_eq,
        seal_as_v1_config_eq, seal_as_v1_config_eq,
        seal_partitions_eq, seal_partitions_eq,
        show RegisteredSealProof.StackedDrg1KiBV1.sector_size.size = 1024 from rfl, h]

/-- Claim C9, witness: the partition lookup and the identifier stability
applied at concrete environments. -/
theorem smallest_variant_resolution_witness :
    RegisteredSealProof.StackedDrg1KiBV1.partitions vkMissingEnv = Outcome.ok 2
  ∧ RegisteredSealProof.StackedDrg1KiBV1.circuit_identifier fullEnv
      = RegisteredSealProof.StackedDrg1KiBV1.circuit_identifier emptyParamsEnv :=
  ⟨smallest_variant_resolution.2.1 vkMissingEnv 2 (by decide),
   smallest_variant_resolution.2.2.2 fullEnv emptyParamsEnv rfl⟩

/-- Claim C10: every PoSt variant's `as_v1_config` builds its
configuration record with the priority flag set to `true`; no catalog
member produces a PoSt configuration with priority `false`. -/
theorem post_config_priority_true :
    ∀ v : RegisteredPoStProof,
      ∃ cfg, v.as_v1_config = Outcome.ok cfg ∧ cfg.priority = true := by
  intro v
  exact ⟨_, post_as_v1_config_eq v, rfl⟩

end FilecoinProofsApi
